import Mathlib

/-!
Verification development for the Stopfinder API client
(`custom_components/stopfinder`).

The Python source is shallowly embedded: pure helpers (`_fix_date`,
`_adjust_time`, `_parse_schedule_response`, `_get_next_trip`) become Lean
functions over explicit optional fields (a Python `dict.get` with no default
becomes an `Option`, `dict.get(k, d)` becomes `Option.getD d`), and the
stateful client (`StopfinderApiClient`) becomes a state-passing machine whose
network side is an oracle `Nat → SimResp` indexed by the number of requests
issued so far, together with an explicit trace of the requests made.

Python string operations are modelled over the character list of the string
(`str.strip` as whitespace-trimming on both ends, `in` as character
containment, slicing as `String.take`/`String.drop`).  The standard-library
`datetime.fromisoformat` is modelled for the basic 19-character naive format
`YYYY-MM-DDTHH:MM:SS` with range validation; extended formats (fractional
seconds, timezone offsets) are treated as parse failures by the model, and
`datetime` arithmetic and ordering are modelled through the proleptic
Gregorian civil-day correspondence.
-/

namespace Stopfinder

/-- Model of Python `str.strip()`: drop whitespace from both ends. -/
def pyStrip (s : String) : String :=
  ⟨((s.data.dropWhile Char.isWhitespace).reverse.dropWhile Char.isWhitespace).reverse⟩

/-- Model of Python `str.startswith(pre)`. -/
def pyStartsWith (s pre : String) : Bool :=
  List.isPrefixOf pre.data s.data

/-- Model of Python `c in s` for a single-character needle. -/
def strContainsChar (s : String) (c : Char) : Bool :=
  s.data.contains c

/-- Model of Python `s.replace("Z", "+00:00")` (single-character pattern). -/
def pyReplaceZ (s : String) : String :=
  ⟨s.data.flatMap (fun ch => if ch = 'Z' then "+00:00".data else [ch])⟩

/-- Python truthiness of an optional string (`None` and `""` are falsy). -/
def optTruthy : Option String → Bool
  | none => false
  | some s => s ≠ ""

/-- Model of Python `a or b` on optional strings (falsy left operand selects `b`). -/
def orElsePy (a b : Option String) : Option String :=
  if optTruthy a then a else b

/-- Model of a Python naive `datetime` value (microseconds are not used by the code). -/
structure PyDateTime where
  year : Nat
  month : Nat
  day : Nat
  hour : Nat
  minute : Nat
  second : Nat
deriving DecidableEq, Repr

/-- Gregorian leap-year test. -/
def isLeap (y : Nat) : Bool :=
  (y % 4 = 0 ∧ y % 100 ≠ 0) ∨ y % 400 = 0

/-- Number of days in a month of a given year. -/
def daysInMonth (y m : Nat) : Nat :=
  if m = 2 then (if isLeap y then 29 else 28)
  else if m = 4 ∨ m = 6 ∨ m = 9 ∨ m = 11 then 30
  else 31

/-- Days since 1970-01-01 of a civil date (proleptic Gregorian). -/
def daysFromCivil (y : Int) (m d : Nat) : Int :=
  let y' : Int := if m ≤ 2 then y - 1 else y
  let era : Int := Int.ediv y' 400
  let yoe : Int := y' - era * 400
  let mp : Nat := if 2 < m then m - 3 else m + 9
  let doy : Nat := (153 * mp + 2) / 5 + d - 1
  let doe : Int := yoe * 365 + Int.ediv yoe 4 - Int.ediv yoe 100 + Int.ofNat doy
  era * 146097 + doe - 719468

/-- Civil date (year, month, day) of a days-since-1970-01-01 count. -/
def civilFromDays (z0 : Int) : Int × Nat × Nat :=
  let z : Int := z0 + 719468
  let era : Int := Int.ediv z 146097
  let doe : Int := z - era * 146097
  let yoe : Int := Int.ediv (doe - Int.ediv doe 1460 + Int.ediv doe 36524 - Int.ediv doe 146096) 365
  let y : Int := yoe + era * 400
  let doy : Int := doe - (365 * yoe + Int.ediv yoe 4 - Int.ediv yoe 100)
  let mp : Int := Int.ediv (5 * doy + 2) 153
  let d : Nat := (doy - Int.ediv (153 * mp + 2) 5 + 1).toNat
  let m : Nat := if mp < 10 then (mp + 3).toNat else (mp - 9).toNat
  (if m ≤ 2 then y + 1 else y, m, d)

/-- Model of adding `timedelta(minutes=m)` to a naive datetime. -/
def PyDateTime.addMinutes (dt : PyDateTime) (m : Int) : PyDateTime :=
  let total : Int :=
    daysFromCivil (Int.ofNat dt.year) dt.month dt.day * 1440
      + Int.ofNat (dt.hour * 60 + dt.minute) + m
  let day : Int := Int.ediv total 1440
  let rem : Nat := (Int.emod total 1440).toNat
  let c := civilFromDays day
  { year := c.1.toNat, month := c.2.1, day := c.2.2,
    hour := rem / 60, minute := rem % 60, second := dt.second }

/-- Two-digit zero-padded decimal rendering. -/
def pad2 (n : Nat) : String :=
  if n < 10 then "0" ++ toString n else toString n

/-- Four-digit zero-padded decimal rendering. -/
def pad4 (n : Nat) : String :=
  if n < 10 then "000" ++ toString n
  else if n < 100 then "00" ++ toString n
  else if n < 1000 then "0" ++ toString n
  else toString n

/-- Model of `datetime.isoformat()` for a naive, whole-second datetime. -/
def PyDateTime.isoformat (dt : PyDateTime) : String :=
  pad4 dt.year ++ "-" ++ pad2 dt.month ++ "-" ++ pad2 dt.day ++ "T"
    ++ pad2 dt.hour ++ ":" ++ pad2 dt.minute ++ ":" ++ pad2 dt.second

/-- Decimal value of a digit character. -/
def digitVal (c : Char) : Nat := c.toNat - 48

/-- Model of `datetime.fromisoformat`, restricted to the basic 19-character
naive format `YYYY-MM-DDTHH:MM:SS`; anything else is a parse failure. -/
def fromisoformat (s : String) : Option PyDateTime :=
  match s.data with
  | [y1, y2, y3, y4, c1, m1, m2, c2, d1, d2, c3, h1, h2, c4, n1, n2, c5, s1, s2] =>
    if c1 = '-' ∧ c2 = '-' ∧ c3 = 'T' ∧ c4 = ':' ∧ c5 = ':' ∧
        ([y1, y2, y3, y4, m1, m2, d1, d2, h1, h2, n1, n2, s1, s2].all Char.isDigit) then
      let y := digitVal y1 * 1000 + digitVal y2 * 100 + digitVal y3 * 10 + digitVal y4
      let mo := digitVal m1 * 10 + digitVal m2
      let da := digitVal d1 * 10 + digitVal d2
      let h := digitVal h1 * 10 + digitVal h2
      let mi := digitVal n1 * 10 + digitVal n2
      let se := digitVal s1 * 10 + digitVal s2
      if 1 ≤ y ∧ 1 ≤ mo ∧ mo ≤ 12 ∧ 1 ≤ da ∧ da ≤ daysInMonth y mo ∧
          h < 24 ∧ mi < 60 ∧ se < 60 then
        some ⟨y, mo, da, h, mi, se⟩
      else none
    else none
  | _ => none

/-- Lexicographic (field-by-field) strict order on naive datetimes, the order
Python uses to compare `datetime` values. -/
def PyDateTime.ltB (a b : PyDateTime) : Bool :=
  if a.year ≠ b.year then decide (a.year < b.year)
  else if a.month ≠ b.month then decide (a.month < b.month)
  else if a.day ≠ b.day then decide (a.day < b.day)
  else if a.hour ≠ b.hour then decide (a.hour < b.hour)
  else if a.minute ≠ b.minute then decide (a.minute < b.minute)
  else decide (a.second < b.second)

/-- Upstream trip object as read by `_parse_schedule_response`: one optional
field per key the code accesses (`none` models an absent key). -/
structure RawTrip where
  name : Option String := none
  busNumber : Option String := none
  pickUpTime : Option String := none
  pickUpStopName : Option String := none
  dropOffTime : Option String := none
  dropOffStopName : Option String := none
  toSchool : Option Bool := none
  vehicleId : Option String := none
  startTime : Option String := none
  finishTime : Option String := none
  adjustMinutes : Option Int := none
deriving DecidableEq, Repr

/-- Upstream per-student schedule object as read by `_parse_schedule_response`. -/
structure RawStudent where
  riderId : Option String := none
  firstName : Option String := none
  lastName : Option String := none
  grade : Option String := none
  school : Option String := none
  trips : Option (List RawTrip) := none
deriving DecidableEq, Repr

/-- Upstream day object as read by `_parse_schedule_response`. -/
structure RawDay where
  date : Option String := none
  studentSchedules : Option (List RawStudent) := none
deriving DecidableEq, Repr

/-- Normalized trip record appended by `_parse_schedule_response`.  The four
time fields are `Option String` because the code reads them with
`trip.get(...)` (no default) and pipes them through `_fix_date` and
`_adjust_time`, both of which pass `None` through. -/
structure Trip where
  name : String
  bus_number : String
  pickup_time : Option String
  pickup_stop_name : String
  dropoff_time : Option String
  dropoff_stop_name : String
  to_school : Bool
  vehicle_id : String
  start_time : Option String
  finish_time : Option String
deriving DecidableEq, Repr

/-- Normalized student record built by `_parse_schedule_response`. -/
structure Student where
  first_name : String
  last_name : String
  grade : String
  school : String
  rider_id : String
  trips : List Trip
deriving DecidableEq, Repr

/-- Model of `StopfinderApiClient._fix_date`: replace the date part (first 10
characters) of a time string with the schedule date. -/
def fix_date : Option String → String → Option String
  | none, _ => none
  | some s, d =>
    if s = "" ∨ d.length < 10 then some s
    else if 10 ≤ s.length ∧ strContainsChar s 'T' then some (d ++ s.drop 10)
    else some s

/-- Model of `StopfinderApiClient._adjust_time`: apply the `adjustMinutes`
offset to a time string. -/
def adjust_time : Option String → Int → Option String
  | none, _ => none
  | some s, m =>
    if s = "" ∨ m = 0 then some s
    else
      match fromisoformat s with
      | some dt => some (PyDateTime.isoformat (dt.addMinutes m))
      | none => some s

/-- The trip record `_parse_schedule_response` appends for one raw trip of a
day whose canonical date is `schedule_date`. -/
def tripRecord (schedule_date : String) (trip : RawTrip) : Trip :=
  let adjust := trip.adjustMinutes.getD 0
  let raw_pickup := fix_date trip.pickUpTime schedule_date
  let raw_dropoff := fix_date trip.dropOffTime schedule_date
  let raw_start := fix_date trip.startTime schedule_date
  let raw_finish := fix_date trip.finishTime schedule_date
  { name := trip.name.getD ""
    bus_number := trip.busNumber.getD ""
    pickup_time := adjust_time raw_pickup adjust
    pickup_stop_name := trip.pickUpStopName.getD ""
    dropoff_time := adjust_time raw_dropoff adjust
    dropoff_stop_name := trip.dropOffStopName.getD ""
    to_school := trip.toSchool.getD false
    vehicle_id := trip.vehicleId.getD ""
    start_time := adjust_time raw_start adjust
    finish_time := adjust_time raw_finish adjust }

/-- The accumulator entry `_parse_schedule_response` creates on first sight of
a rider id. -/
def initStudent (st : RawStudent) : Student :=
  { first_name := st.firstName.getD ""
    last_name := st.lastName.getD ""
    grade := st.grade.getD ""
    school := st.school.getD ""
    rider_id := st.riderId.getD ""
    trips := [] }

/-- First value stored under a key in an insertion-ordered association list
(the model of the Python dict `students_by_id`). -/
def findS (rid : String) : List (String × Student) → Option Student
  | [] => none
  | p :: rest => if p.1 = rid then some p.2 else findS rid rest

/-- Appending one trip to a student record. -/
def Student.pushTrip (s : Student) (t : Trip) : Student :=
  { s with trips := s.trips ++ [t] }

/-- Appending a list of trips to a student record. -/
def Student.pushTrips (s : Student) (ts : List Trip) : Student :=
  { s with trips := s.trips ++ ts }

/-- Model of `students_by_id[rider_id]["trips"].append(t)`. -/
def addTrip (acc : List (String × Student)) (rid : String) (t : Trip) :
    List (String × Student) :=
  acc.map (fun p => if p.1 = rid then (p.1, p.2.pushTrip t) else p)

/-- The body of the inner student loop of `_parse_schedule_response`: register
the rider on first sight, then append all of this student object's trips. -/
def processStudent (schedule_date : String) (acc : List (String × Student))
    (st : RawStudent) : List (String × Student) :=
  let rid := st.riderId.getD ""
  let acc1 := if (findS rid acc).isSome then acc else acc ++ [(rid, initStudent st)]
  (st.trips.getD []).foldl (fun a tr => addTrip a rid (tripRecord schedule_date tr)) acc1

/-- The body of the outer day loop of `_parse_schedule_response`. -/
def processDay (acc : List (String × Student)) (day : RawDay) :
    List (String × Student) :=
  let schedule_date := (day.date.getD "?").take 10
  (day.studentSchedules.getD []).foldl (processStudent schedule_date) acc

/-- Model of `StopfinderApiClient._parse_schedule_response` applied to the
decoded JSON body: `none` models a non-list body (the `isinstance` guard
fails and the empty accumulator is returned). -/
def parse_schedule_response : Option (List RawDay) → List Student
  | none => []
  | some days => ((days.foldl processDay []).map Prod.snd)

/-- One simulated HTTP response.  Each field models the slice of the response
the client reads at the corresponding endpoint: `textBody` for discovery
(`response.text()`), `tokenField` for the `token` key of the auth body,
`versionsBody` for the apiversions body (`none` models a non-list JSON value,
entries are each element's optional `clientId`), `scheduleBody` for the
schedule body (`none` models a non-list JSON value). -/
structure SimResp where
  status : Nat := 200
  textBody : String := ""
  tokenField : Option String := none
  versionsBody : Option (List (Option String)) := none
  scheduleBody : Option (List RawDay) := none
deriving DecidableEq, Repr

/-- The variable parts of the request headers built by `_get_headers` (the
fixed mobile-client header constants carry no information for the claims). -/
structure HeadersModel where
  token : Option String := none
  clientKeys : Option String := none
deriving DecidableEq, Repr

/-- One recorded outgoing request. -/
inductive ReqKind
  | discovery
  | tokens
  | apiversions (h : HeadersModel)
  | students (dateStart dateEnd : String) (h : HeadersModel)
deriving DecidableEq, Repr

/-- Mutable fields of `StopfinderApiClient` that the modelled operations
touch (`_token`, `_client_id`, `_api_base_url`). -/
structure ClientState where
  token : Option String := none
  clientId : Option String := none
  apiBaseUrl : Option String := none
deriving DecidableEq, Repr

/-- A client state together with the request counter and the trace of
requests issued so far. -/
structure RunState where
  st : ClientState := {}
  n : Nat := 0
  trace : List ReqKind := []
deriving DecidableEq, Repr

/-- Record one outgoing request. -/
def push (rs : RunState) (r : ReqKind) : RunState :=
  { rs with n := rs.n + 1, trace := rs.trace ++ [r] }

/-- Error taxonomy of the client (`StopfinderConnectionError`,
`StopfinderAuthError`, `StopfinderApiError`), with the raised message. -/
inductive SFError
  | connectionError (msg : String)
  | authError (msg : String)
  | apiError (msg : String)
deriving DecidableEq, Repr

/-- The network oracle: the response to the i-th request issued. -/
def Env : Type := Nat → SimResp

/-- Model of `_get_headers`: the token header is attached only when requested
and the stored token is truthy. -/
def get_headers (include_token : Bool) (st : ClientState) : HeadersModel :=
  { token := if include_token ∧ optTruthy st.token then st.token else none
    clientKeys := none }

/-- Model of the `X-Client-Keys` line of `get_schedules`: attach the client id
only when it is truthy. -/
def withClientKeys (h : HeadersModel) (st : ClientState) : HeadersModel :=
  if optTruthy st.clientId then { h with clientKeys := st.clientId } else h

/-- Model of `_get_stopfinder_base_url`: one discovery GET; a non-200 status
or a trimmed body not starting with "http" raises a connection error. -/
def py_get_stopfinder_base_url (env : Env) (rs : RunState) :
    Except SFError String × RunState :=
  let resp := env rs.n
  let rs1 := push rs ReqKind.discovery
  if resp.status ≠ 200 then
    (Except.error (SFError.connectionError
      ("Failed to get Stopfinder URL: " ++ toString resp.status)), rs1)
  else
    let data := pyStrip resp.textBody
    if pyStartsWith data "http" then (Except.ok data, rs1)
    else
      (Except.error (SFError.connectionError
        "Invalid response from Stopfinder discovery"), rs1)

/-- The guard `if not self._api_base_url: self._api_base_url = await
self._get_stopfinder_base_url()` shared by `_authenticate` and
`_get_client_id`. -/
def ensureBaseUrl (env : Env) (rs : RunState) : Except SFError Unit × RunState :=
  if optTruthy rs.st.apiBaseUrl then (Except.ok (), rs)
  else
    match py_get_stopfinder_base_url env rs with
    | (Except.error e, rs1) => (Except.error e, rs1)
    | (Except.ok u, rs1) =>
      (Except.ok (), { rs1 with st := { rs1.st with apiBaseUrl := some u } })

/-- Model of `_authenticate`: ensure the base URL, POST the password grant,
classify the status, store the body's token and require it truthy. -/
def py_authenticate (env : Env) (rs : RunState) : Except SFError Unit × RunState :=
  match ensureBaseUrl env rs with
  | (Except.error e, rs1) => (Except.error e, rs1)
  | (Except.ok _, rs1) =>
    let resp := env rs1.n
    let rs2 := push rs1 ReqKind.tokens
    if resp.status = 400 ∨ resp.status = 401 then
      (Except.error (SFError.authError "Invalid credentials"), rs2)
    else if ¬ (resp.status = 200 ∨ resp.status = 201) then
      (Except.error (SFError.authError
        ("Authentication failed: " ++ toString resp.status)), rs2)
    else
      let rs3 := { rs2 with st := { rs2.st with token := resp.tokenField } }
      if ¬ optTruthy rs3.st.token then
        (Except.error (SFError.authError "No token in response"), rs3)
      else (Except.ok (), rs3)

/-- Model of `_get_client_id`: ensure the base URL, GET the api versions, and
store the first element's client id. -/
def py_get_client_id (env : Env) (rs : RunState) :
    Except SFError (Option String) × RunState :=
  match ensureBaseUrl env rs with
  | (Except.error e, rs1) => (Except.error e, rs1)
  | (Except.ok _, rs1) =>
    let resp := env rs1.n
    let rs2 := push rs1 (ReqKind.apiversions (get_headers true rs1.st))
    if resp.status ≠ 200 then
      (Except.error (SFError.apiError
        ("Failed to get API versions: " ++ toString resp.status)), rs2)
    else
      match resp.versionsBody with
      | some (c :: _) =>
        (Except.ok c, { rs2 with st := { rs2.st with clientId := c } })
      | _ => (Except.error (SFError.apiError "Invalid API versions response"), rs2)

/-- Model of the public `authenticate`: `_authenticate` then `_get_client_id`. -/
def py_authenticate_full (env : Env) (rs : RunState) : Except SFError Bool × RunState :=
  match py_authenticate env rs with
  | (Except.error e, rs1) => (Except.error e, rs1)
  | (Except.ok _, rs1) =>
    match py_get_client_id env rs1 with
    | (Except.error e, rs2) => (Except.error e, rs2)
    | (Except.ok _, rs2) => (Except.ok true, rs2)

/-- The query-and-retry body of `get_schedules`, from the base-URL check
onwards. -/
def py_get_schedules_query (env : Env) (dateStart dateEnd : String)
    (rs1 : RunState) : Except SFError (List Student) × RunState :=
  if ¬ optTruthy rs1.st.apiBaseUrl then
    (Except.error (SFError.apiError "API base URL not set"), rs1)
  else
    let headers := withClientKeys (get_headers true rs1.st) rs1.st
    let resp := env rs1.n
    let rs2 := push rs1 (ReqKind.students dateStart dateEnd headers)
    if resp.status = 200 then
      (Except.ok (parse_schedule_response resp.scheduleBody), rs2)
    else
      let rs3 := { rs2 with st := { rs2.st with token := none } }
      match py_authenticate_full env rs3 with
      | (Except.error e, rs4) => (Except.error e, rs4)
      | (Except.ok _, rs4) =>
        let headers2 := withClientKeys (get_headers true rs4.st) rs4.st
        let resp2 := env rs4.n
        let rs5 := push rs4 (ReqKind.students dateStart dateEnd headers2)
        if resp2.status ≠ 200 then
          (Except.error (SFError.apiError
            ("Failed to get schedules: " ++ toString resp2.status)), rs5)
        else (Except.ok (parse_schedule_response resp2.scheduleBody), rs5)

/-- Model of `get_schedules`.  The query dates are parameters (the defaulting
of absent dates from the current clock is outside the model).  The body after
the ensure-token step is `py_get_schedules_query`: on a non-200 first response
the token is cleared, the full authentication chain is re-run, headers are
rebuilt and the identical query is retried exactly once. -/
def py_get_schedules (env : Env) (dateStart dateEnd : String) (rs : RunState) :
    Except SFError (List Student) × RunState :=
  let step0 : Except SFError Unit × RunState :=
    if ¬ optTruthy rs.st.token then
      match py_authenticate_full env rs with
      | (Except.error e, rs1) => (Except.error e, rs1)
      | (Except.ok _, rs1) => (Except.ok (), rs1)
    else (Except.ok (), rs)
  match step0 with
  | (Except.error e, rs1) => (Except.error e, rs1)
  | (Except.ok _, rs1) => py_get_schedules_query env dateStart dateEnd rs1

/-- Model of the sensor helper `_parse_datetime` (the timezone-attachment step
is the identity here since only naive timestamps are parsed by the model). -/
def parse_datetime : Option String → Option PyDateTime
  | none => none
  | some s => if s = "" then none else fromisoformat (pyReplaceZ s)

/-- The direction filter of `_get_next_trip`: skip the trip when a filter is
given and the trip's direction differs. -/
def passFilter (to_school : Option Bool) (tr : Trip) : Bool :=
  match to_school with
  | none => true
  | some b => tr.to_school = b

/-- The time field `_get_next_trip` reads for a trip: pickup time for
to-school trips, drop-off time falling back to pickup time otherwise. -/
def timeSel (to_school : Option Bool) (tr : Trip) : Option String :=
  if to_school = some true ∨ (to_school = none ∧ tr.to_school) then tr.pickup_time
  else orElsePy tr.dropoff_time tr.pickup_time

/-- The selection loop of `_get_next_trip`, carrying the best trip and its
parsed time. -/
def nextTripLoop (ts : Option Bool) (now : PyDateTime) :
    List Trip → Option Trip → Option PyDateTime → Option Trip × Option PyDateTime
  | [], best, bt => (best, bt)
  | tr :: rest, best, bt =>
    if ¬ passFilter ts tr then nextTripLoop ts now rest best bt
    else
      match parse_datetime (timeSel ts tr) with
      | none => nextTripLoop ts now rest best bt
      | some t =>
        if PyDateTime.ltB now t then
          match bt with
          | none => nextTripLoop ts now rest (some tr) (some t)
          | some b =>
            if PyDateTime.ltB t b then nextTripLoop ts now rest (some tr) (some t)
            else nextTripLoop ts now rest best bt
        else nextTripLoop ts now rest best bt

/-- Model of `_get_next_trip` applied to a student's trip list. -/
def get_next_trip (trips : List Trip) (ts : Option Bool) (now : PyDateTime) :
    Option Trip :=
  (nextTripLoop ts now trips none none).1

/-- The qualifying candidates of `_get_next_trip`, in list order: trips that
pass the direction filter, whose selected time parses, and whose time is
strictly after `now`, paired with that time. -/
def quals (ts : Option Bool) (now : PyDateTime) (trips : List Trip) :
    List (Trip × PyDateTime) :=
  trips.filterMap (fun tr =>
    if passFilter ts tr then
      match parse_datetime (timeSel ts tr) with
      | some t => if PyDateTime.ltB now t then some (tr, t) else none
      | none => none
    else none)

/-- A flattened normalization event: the rider key of one raw student object,
the student record created on its first sight, and its normalized trips. -/
def Event : Type := String × Student × List Trip

/-- Decidable equality of events. -/
instance : DecidableEq Event := by
  unfold Event
  exact inferInstance

/-- The event of one raw student object of a day with canonical date `d`. -/
def toEvent (d : String) (st : RawStudent) : Event :=
  (st.riderId.getD "", initStudent st, (st.trips.getD []).map (tripRecord d))

/-- The events of one day of the payload, in order. -/
def dayEvents (day : RawDay) : List Event :=
  (day.studentSchedules.getD []).map (toEvent ((day.date.getD "?").take 10))

/-- All events of a payload, in the order days were returned and student
objects were listed within a day. -/
def flatEvents (days : List RawDay) : List Event :=
  days.flatMap dayEvents

/-- The accumulator step of `_parse_schedule_response` expressed on one
event: register the key on first sight, then append the event's trips. -/
def stepE (acc : List (String × Student)) (e : Event) : List (String × Student) :=
  let acc1 := if (findS e.1 acc).isSome then acc else acc ++ [(e.1, e.2.1)]
  e.2.2.foldl (fun a t => addTrip a e.1 t) acc1

/-- Append a key if not already present (first-insertion order). -/
def insertKey (ks : List String) (k : String) : List String :=
  if k ∈ ks then ks else ks ++ [k]

/-- The distinct rider keys of an event list, in first-insertion order.
Modelled from the spec: output is the accumulator's values in
first-insertion order of rider_id. -/
def keyOrder (evs : List Event) : List String :=
  evs.foldl (fun ks e => insertKey ks e.1) []

/-- First event carrying a given key. -/
def findE (k : String) : List Event → Option Event
  | [] => none
  | e :: rest => if e.1 = k then some e else findE k rest

/-- Modelled from the spec: identity fields of a rider are taken from the
first day (first student object) in which the rider appears. -/
def identityOf (evs : List Event) (k : String) : Student :=
  match findE k evs with
  | some e => e.2.1
  | none => initStudent {}

/-- Modelled from the spec: a rider accumulates the trips of all of its
student objects, in the order days were returned and within a day. -/
def tripsOf (evs : List Event) (k : String) : List Trip :=
  (evs.filter (fun e => decide (e.1 = k))).flatMap (fun e => e.2.2)

/-- The spec-side student record for one rider key. -/
def specStudent (evs : List Event) (k : String) : Student :=
  (identityOf evs k).pushTrips (tripsOf evs k)

/-- Modelled from the spec: the merge-by-rider description of normalization —
one record per distinct rider_id in first-insertion order, identity from the
first occurrence, trips accumulated across days in encounter order. -/
def mergeSpec (days : List RawDay) : List Student :=
  (keyOrder (flatEvents days)).map (fun k => specStudent (flatEvents days) k)

/-- Lexicographic strict order on datetimes as a proposition. -/
def lexLt (a b : PyDateTime) : Prop :=
  a.year < b.year ∨ (a.year = b.year ∧ (a.month < b.month ∨ (a.month = b.month ∧
    (a.day < b.day ∨ (a.day = b.day ∧ (a.hour < b.hour ∨ (a.hour = b.hour ∧
      (a.minute < b.minute ∨ (a.minute = b.minute ∧ a.second < b.second)))))))))

/-- First-occurrence minimum selection over already-qualified candidates. -/
def pickFirstMin (best : Trip × PyDateTime) :
    List (Trip × PyDateTime) → Trip × PyDateTime
  | [] => best
  | p :: rest =>
    if PyDateTime.ltB p.2 best.2 then pickFirstMin p rest else pickFirstMin best rest

/-- Decidable equality for results, used to evaluate concrete scenarios. -/
instance {e a : Type} [DecidableEq e] [DecidableEq a] : DecidableEq (Except e a) :=
  fun x y =>
    match x, y with
    | Except.ok u, Except.ok v =>
      if h : u = v then Decidable.isTrue (by rw [h])
      else Decidable.isFalse (by intro hc; injection hc; exact h (by assumption))
    | Except.error u, Except.error v =>
      if h : u = v then Decidable.isTrue (by rw [h])
      else Decidable.isFalse (by intro hc; injection hc; exact h (by assumption))
    | Except.ok _, Except.error _ => Decidable.isFalse (by intro hc; exact Except.noConfusion hc)
    | Except.error _, Except.ok _ => Decidable.isFalse (by intro hc; exact Except.noConfusion hc)

/-- Discovery response whose body is the JSON object from the spec example. -/
def envJsonDiscovery : Env :=
  fun _ => { status := 200, textBody := "\x7b\x22sfApiUri\x22: \x22https://x\x22\x7d" }

/-- Discovery response with a plain-text URL body surrounded by whitespace. -/
def envTextDiscovery : Env :=
  fun _ => { status := 200, textBody := "  https://svc.example.com/api  " }

/-- A day object holding one student with one completely empty trip object. -/
def dayWithEmptyTrip : RawDay :=
  { date := some "2024-03-10T00:00:00",
    studentSchedules := some [{ riderId := some "R1", trips := some [{}] }] }

/-- Client state with a discovered base URL, used by concrete scenarios. -/
def rsBase : RunState := { st := { apiBaseUrl := some "https://api" } }

/-- Auth response with status 202 carrying a token. -/
def envAuth202 : Env := fun _ => { status := 202, tokenField := some "abc" }

/-- Auth response with status 401. -/
def envAuth401 : Env := fun _ => { status := 401, tokenField := some "abc" }

/-- Auth response with status 200 and token "abc". -/
def envAuth200 : Env := fun _ => { status := 200, tokenField := some "abc" }

/-- Auth response with status 200 and an empty token field. -/
def envAuthEmptyTok : Env := fun _ => { status := 200, tokenField := some "" }

/-- Auth response with a 2xx status other than 200/201 and no token field. -/
def envAuth202NoTok : Env := fun _ => { status := 202 }

/-- Session that already holds a token, to exhibit the overwrite. -/
def rsWithOldToken : RunState :=
  { st := { token := some "old", apiBaseUrl := some "https://api" } }

/-- Discovery-request recognizer for trace counting. -/
def isDiscovery : ReqKind → Bool
  | ReqKind.discovery => true
  | _ => false

/-- Oracle for the retry scenario: first schedule request fails with 500,
re-authentication succeeds, the retry fails with 503. -/
def wEnvRetry : Env := fun n =>
  match n with
  | 0 => { status := 500 }
  | 1 => { status := 200, tokenField := some "tk2" }
  | 2 => { status := 200, versionsBody := some [some "cid"] }
  | _ => { status := 503 }

/-- An authenticated session with a discovered base URL. -/
def wStFull : ClientState :=
  { token := some "old", clientId := some "cid", apiBaseUrl := some "https://api" }

/-- Session run-state for the stability witness. -/
def wRsFull : RunState := { st := wStFull }

/-- Example student object: rider R1, identity "A", one trip named t1. -/
def exStudent1 : RawStudent :=
  { riderId := some "R1", firstName := some "A", trips := some [{ name := some "t1" }] }

/-- Example student object: rider R1 again, identity "B", one trip named t2. -/
def exStudent2 : RawStudent :=
  { riderId := some "R1", firstName := some "B", trips := some [{ name := some "t2" }] }

/-- First example day: rider R1 with one trip. -/
def exDay1 : RawDay :=
  { date := some "2024-03-10T00:00:00", studentSchedules := some [exStudent1] }

/-- Second example day: rider R1 again with one trip, different identity
fields (ignored as duplicates). -/
def exDay2 : RawDay :=
  { date := some "2024-03-11T00:00:00", studentSchedules := some [exStudent2] }

/-- Future to-school trip (pickup ten minutes after the witness "now"). -/
def wTripA : Trip :=
  { name := "a", bus_number := "", pickup_time := some "2024-03-10T08:25:00",
    pickup_stop_name := "", dropoff_time := none, dropoff_stop_name := "",
    to_school := true, vehicle_id := "", start_time := none, finish_time := none }

/-- Past to-school trip (pickup five minutes before the witness "now"). -/
def wTripB : Trip :=
  { name := "b", bus_number := "", pickup_time := some "2024-03-10T08:10:00",
    pickup_stop_name := "", dropoff_time := none, dropoff_stop_name := "",
    to_school := true, vehicle_id := "", start_time := none, finish_time := none }

/-- The witness "now". -/
def wNow : PyDateTime := ⟨2024, 3, 10, 8, 15, 0⟩

theorem Student.pushTrips_nil (s : Student) : s.pushTrips [] = s := by
  cases s
  simp [Student.pushTrips]

theorem Student.pushTrip_pushTrips (s : Student) (t : Trip) (ts : List Trip) :
    (s.pushTrip t).pushTrips ts = s.pushTrips (t :: ts) := by
  cases s
  simp [Student.pushTrip, Student.pushTrips]

theorem Student.pushTrips_append (s : Student) (a b : List Trip) :
    s.pushTrips (a ++ b) = (s.pushTrips a).pushTrips b := by
  cases s
  simp [Student.pushTrips]

theorem findS_map_pairing (g : String → Student) (ks : List String) (k : String) :
    findS k (ks.map (fun x => (x, g x))) = if k ∈ ks then some (g k) else none := by
  induction ks with
  | nil => simp [findS]
  | cons a t ih =>
    by_cases h : a = k
    · subst h
      simp [findS]
    · simp [findS, h, ih, Ne.symm h]

theorem addTrip_map_pairing (g : String → Student) (ks : List String) (r : String)
    (t : Trip) :
    addTrip (ks.map (fun x => (x, g x))) r t
      = ks.map (fun x => (x, if x = r then (g x).pushTrip t else g x)) := by
  induction ks with
  | nil => rfl
  | cons a l ih =>
    by_cases h : a = r
    · simp [addTrip, h] at ih ⊢
      exact ih
    · simp [addTrip, h] at ih ⊢
      exact ih

theorem foldl_addTrip_map (r : String) (ts : List Trip) (ks : List String)
    (g : String → Student) :
    ts.foldl (fun a t => addTrip a r t) (ks.map (fun x => (x, g x)))
      = ks.map (fun x => (x, if x = r then (g x).pushTrips ts else g x)) := by
  induction ts generalizing g with
  | nil =>
    simp [Student.pushTrips_nil]
  | cons t rest ih =>
    rw [List.foldl_cons, addTrip_map_pairing, ih]
    apply List.map_congr_left
    intro x _
    by_cases h : x = r
    · simp [h, Student.pushTrip_pushTrips]
    · simp [h]

theorem mem_insertKey (ks : List String) (x k : String) :
    k ∈ insertKey ks x ↔ k ∈ ks ∨ k = x := by
  unfold insertKey
  by_cases h : x ∈ ks
  · rw [if_pos h]
    constructor
    · exact fun hk => Or.inl hk
    · rintro (hk | hk)
      · exact hk
      · subst hk; exact h
  · simp [h]

theorem nodup_insertKey (ks : List String) (x : String) (h : ks.Nodup) :
    (insertKey ks x).Nodup := by
  unfold insertKey
  by_cases hx : x ∈ ks
  · simpa [hx]
  · simp [hx, List.nodup_append, h]

theorem keyOrder_append_single (evs : List Event) (e : Event) :
    keyOrder (evs ++ [e]) = insertKey (keyOrder evs) e.1 := by
  simp [keyOrder, List.foldl_append]

theorem mem_foldl_insertKey (evs : List Event) (k : String) :
    ∀ init : List String,
      (k ∈ evs.foldl (fun ks e => insertKey ks e.1) init
        ↔ k ∈ init ∨ ∃ e ∈ evs, e.1 = k) := by
  induction evs with
  | nil => intro init; simp
  | cons e rest ih =>
    intro init
    rw [List.foldl_cons, ih]
    rw [mem_insertKey]
    constructor
    · rintro (⟨h | h⟩ | h)
      · exact Or.inl h
      · exact Or.inr ⟨e, by simp, h.symm⟩
      · rcases h with ⟨e', he', hk⟩
        exact Or.inr ⟨e', by simp [he'], hk⟩
    · rintro (h | ⟨e', he', hk⟩)
      · exact Or.inl (Or.inl h)
      · rcases List.mem_cons.mp he' with h1 | h1
        · subst h1
          exact Or.inl (Or.inr hk.symm)
        · exact Or.inr ⟨e', h1, hk⟩

theorem mem_keyOrder (evs : List Event) (k : String) :
    k ∈ keyOrder evs ↔ ∃ e ∈ evs, e.1 = k := by
  rw [keyOrder, mem_foldl_insertKey]
  simp

theorem nodup_keyOrder (evs : List Event) : (keyOrder evs).Nodup := by
  have h : ∀ init : List String, init.Nodup →
      (evs.foldl (fun ks e => insertKey ks e.1) init).Nodup := by
    induction evs with
    | nil => intro init hi; simpa
    | cons e rest ih =>
      intro init hi
      exact ih _ (nodup_insertKey _ _ hi)
  exact h [] (by simp)

theorem findE_append (k : String) (a b : List Event) :
    findE k (a ++ b) = match findE k a with
      | some e => some e
      | none => findE k b := by
  induction a with
  | nil => simp [findE]
  | cons e rest ih =>
    by_cases h : e.1 = k
    · simp [findE, h]
    · simp [findE, h, ih]

theorem findE_isSome_iff (k : String) (evs : List Event) :
    (findE k evs).isSome ↔ ∃ e ∈ evs, e.1 = k := by
  induction evs with
  | nil => simp [findE]
  | cons e rest ih =>
    by_cases h : e.1 = k
    · simp [findE, h]
    · simp only [findE, if_neg h, ih, List.mem_cons]
      constructor
      · rintro ⟨e', he', hk⟩
        exact ⟨e', Or.inr he', hk⟩
      · rintro ⟨e', he' | he', hk⟩
        · subst he'; exact absurd hk h
        · exact ⟨e', he', hk⟩

theorem findE_mem (k : String) (evs : List Event) (e : Event)
    (h : findE k evs = some e) : e ∈ evs ∧ e.1 = k := by
  induction evs with
  | nil => simp [findE] at h
  | cons e' rest ih =>
    by_cases h1 : e'.1 = k
    · simp [findE, h1] at h
      subst h
      exact ⟨by simp, h1⟩
    · simp [findE, h1] at h
      rcases ih h with ⟨hm, hk⟩
      exact ⟨by simp [hm], hk⟩

theorem tripsOf_append_single (evs : List Event) (e : Event) (k : String) :
    tripsOf (evs ++ [e]) k = tripsOf evs k ++ (if e.1 = k then e.2.2 else []) := by
  unfold tripsOf
  rw [List.filter_append]
  by_cases h : e.1 = k
  · simp [h]
  · simp [h]

theorem tripsOf_nil_of_no_key (evs : List Event) (k : String)
    (h : ¬ ∃ e ∈ evs, e.1 = k) : tripsOf evs k = [] := by
  unfold tripsOf
  have : evs.filter (fun e => decide (e.1 = k)) = [] := by
    rw [List.filter_eq_nil_iff]
    intro e he
    simp
    intro hk
    exact h ⟨e, he, hk⟩
  simp [this]

theorem specStudent_append_mem (evs : List Event) (e : Event) (k : String)
    (hk : (findE k evs).isSome) :
    specStudent (evs ++ [e]) k
      = if e.1 = k then (specStudent evs k).pushTrips e.2.2
        else specStudent evs k := by
  obtain ⟨e', he'⟩ := Option.isSome_iff_exists.mp hk
  unfold specStudent identityOf
  rw [findE_append, he', tripsOf_append_single]
  by_cases h : e.1 = k
  · simp [h, Student.pushTrips_append]
  · simp [h, Student.pushTrips_nil]

theorem specStudent_append_new (evs : List Event) (e : Event) (k : String)
    (hk : findE k evs = none) (he : e.1 = k) :
    specStudent (evs ++ [e]) k = e.2.1.pushTrips e.2.2 := by
  unfold specStudent identityOf
  rw [findE_append, hk, tripsOf_append_single]
  have ht : tripsOf evs k = [] := by
    apply tripsOf_nil_of_no_key
    rintro ⟨e', he', hk'⟩
    have h2 := (findE_isSome_iff k evs).mpr ⟨e', he', hk'⟩
    rw [hk] at h2
    simp at h2
  rw [ht]
  simp [findE, he]

theorem foldl_stepE_spec (evs : List Event) :
    evs.foldl stepE [] = (keyOrder evs).map (fun k => (k, specStudent evs k)) := by
  induction evs using List.reverseRecOn with
  | nil => rfl
  | append_singleton evs e ih =>
    rw [List.foldl_append, List.foldl_cons, List.foldl_nil, ih, keyOrder_append_single]
    dsimp only [stepE]
    by_cases hr : e.1 ∈ keyOrder evs
    · rw [findS_map_pairing, if_pos hr]
      simp only [Option.isSome_some, if_true]
      rw [foldl_addTrip_map]
      rw [insertKey, if_pos hr]
      apply List.map_congr_left
      intro k hk
      have hks : (findE k evs).isSome :=
        (findE_isSome_iff k evs).mpr ((mem_keyOrder evs k).mp hk)
      rw [specStudent_append_mem evs e k hks]
      by_cases hkr : k = e.1
      · simp [hkr]
      · simp [hkr, Ne.symm hkr]
    · rw [findS_map_pairing, if_neg hr]
      simp only [Option.isSome_none, Bool.false_eq_true, if_false]
      have hmap : (keyOrder evs).map (fun k => (k, specStudent evs k)) ++ [(e.1, e.2.1)]
          = (keyOrder evs ++ [e.1]).map
              (fun k => (k, if k = e.1 then e.2.1 else specStudent evs k)) := by
        rw [List.map_append]
        congr 1
        · apply List.map_congr_left
          intro k hk
          have hne : k ≠ e.1 := fun h => hr (h ▸ hk)
          simp [hne]
        · simp
      rw [hmap, foldl_addTrip_map]
      rw [insertKey, if_neg hr]
      apply List.map_congr_left
      intro k hk
      rcases List.mem_append.mp hk with hk1 | hk1
      · have hne : k ≠ e.1 := fun h => hr (h ▸ hk1)
        have hks : (findE k evs).isSome :=
          (findE_isSome_iff k evs).mpr ((mem_keyOrder evs k).mp hk1)
        rw [specStudent_append_mem evs e k hks]
        simp [hne, Ne.symm hne]
      · have hk2 : k = e.1 := by simpa using hk1
        subst hk2
        have hnone : findE e.1 evs = none := by
          cases h : findE e.1 evs with
          | none => rfl
          | some e' =>
            exact absurd ((mem_keyOrder evs e.1).mpr
              ((findE_isSome_iff e.1 evs).mp (by simp [h]))) hr
        rw [specStudent_append_new evs e e.1 hnone rfl]
        simp

theorem processStudent_eq_stepE (d : String) (acc : List (String × Student))
    (st : RawStudent) : processStudent d acc st = stepE acc (toEvent d st) := by
  dsimp only [processStudent, stepE, toEvent]
  rw [List.foldl_map]

theorem processDay_eq_foldl (acc : List (String × Student)) (day : RawDay) :
    processDay acc day = (dayEvents day).foldl stepE acc := by
  dsimp only [processDay, dayEvents]
  rw [List.foldl_map]
  congr 1
  funext a st
  exact processStudent_eq_stepE _ a st

theorem foldl_processDay_eq (days : List RawDay) :
    ∀ acc : List (String × Student),
      days.foldl processDay acc = (flatEvents days).foldl stepE acc := by
  induction days with
  | nil => intro acc; rfl
  | cons d rest ih =>
    intro acc
    rw [List.foldl_cons, ih, processDay_eq_foldl]
    dsimp only [flatEvents]
    rw [List.flatMap_cons, List.foldl_append]

theorem parse_eq_foldl_stepE (days : List RawDay) :
    parse_schedule_response (some days)
      = ((flatEvents days).foldl stepE []).map Prod.snd := by
  dsimp only [parse_schedule_response]
  rw [foldl_processDay_eq]

theorem parse_eq_mergeSpec (days : List RawDay) :
    parse_schedule_response (some days) = mergeSpec days := by
  rw [parse_eq_foldl_stepE, foldl_stepE_spec, mergeSpec, List.map_map]
  rfl

theorem flatEvents_key_eq_rider (days : List RawDay) (e : Event)
    (he : e ∈ flatEvents days) : e.2.1.rider_id = e.1 := by
  dsimp only [flatEvents] at he
  rw [List.mem_flatMap] at he
  obtain ⟨day, _, hd⟩ := he
  dsimp only [dayEvents] at hd
  rw [List.mem_map] at hd
  obtain ⟨st, _, hst⟩ := hd
  subst hst
  rfl

theorem parse_rider_ids_nodup (days : List RawDay) :
    ((parse_schedule_response (some days)).map Student.rider_id).Nodup := by
  rw [parse_eq_mergeSpec, mergeSpec, List.map_map]
  have hids : (keyOrder (flatEvents days)).map
        (Student.rider_id ∘ fun k => specStudent (flatEvents days) k)
      = (keyOrder (flatEvents days)).map id := by
    apply List.map_congr_left
    intro k hk
    have hks : (findE k (flatEvents days)).isSome :=
      (findE_isSome_iff k (flatEvents days)).mpr ((mem_keyOrder _ k).mp hk)
    obtain ⟨e', he'⟩ := Option.isSome_iff_exists.mp hks
    obtain ⟨hmem, hkey⟩ := findE_mem _ _ _ he'
    simp only [Function.comp, specStudent, identityOf, he', Student.pushTrips, id]
    rw [flatEvents_key_eq_rider days e' hmem] at *
    exact hkey
  rw [hids, List.map_id]
  exact nodup_keyOrder _

theorem ltB_true_iff (a b : PyDateTime) : PyDateTime.ltB a b = true ↔ lexLt a b := by
  unfold PyDateTime.ltB lexLt
  by_cases h1 : a.year = b.year <;> by_cases h2 : a.month = b.month <;>
    by_cases h3 : a.day = b.day <;> by_cases h4 : a.hour = b.hour <;>
    by_cases h5 : a.minute = b.minute <;>
    simp [h1, h2, h3, h4, h5] <;> omega

theorem ltB_false_iff (a b : PyDateTime) : PyDateTime.ltB a b = false ↔ ¬ lexLt a b := by
  rw [← ltB_true_iff]
  cases PyDateTime.ltB a b <;> simp

theorem lexLt_trans {a b c : PyDateTime} (h1 : lexLt a b) (h2 : lexLt b c) :
    lexLt a c := by
  unfold lexLt at *
  omega

theorem lexLt_lt_of_not_lt {a b c : PyDateTime} (h1 : lexLt a b)
    (h2 : ¬ lexLt c b) : lexLt a c := by
  unfold lexLt at *
  omega

theorem pickFirstMin_split (l : List (Trip × PyDateTime)) :
    ∀ best : Trip × PyDateTime, ∃ qpre qpost,
      best :: l = qpre ++ pickFirstMin best l :: qpost ∧
      (∀ p ∈ qpre, PyDateTime.ltB (pickFirstMin best l).2 p.2 = true) ∧
      (∀ p ∈ qpost, PyDateTime.ltB p.2 (pickFirstMin best l).2 = false) := by
  induction l with
  | nil =>
    intro best
    exact ⟨[], [], by simp [pickFirstMin], by simp, by simp⟩
  | cons p rest ih =>
    intro best
    by_cases h : PyDateTime.ltB p.2 best.2 = true
    · rw [show pickFirstMin best (p :: rest) = pickFirstMin p rest by
        simp [pickFirstMin, h]]
      obtain ⟨qpre, qpost, hsplit, hpre, hpost⟩ := ih p
      have hpb : PyDateTime.ltB (pickFirstMin p rest).2 best.2 = true := by
        cases hq : qpre with
        | nil =>
          rw [hq] at hsplit
          simp only [List.nil_append, List.cons.injEq] at hsplit
          rw [← hsplit.1]
          exact h
        | cons q qrest =>
          rw [hq] at hsplit
          simp only [List.cons_append, List.cons.injEq] at hsplit
          have hlt : PyDateTime.ltB (pickFirstMin p rest).2 q.2 = true := by
            apply hpre
            rw [hq]
            simp
          rw [← hsplit.1] at hlt
          rw [ltB_true_iff] at hlt h ⊢
          exact lexLt_trans hlt h
      refine ⟨best :: qpre, qpost, by simp [hsplit], ?_, hpost⟩
      intro x hx
      rcases List.mem_cons.mp hx with hx1 | hx1
      · rw [hx1]
        exact hpb
      · exact hpre x hx1
    · have hb : PyDateTime.ltB p.2 best.2 = false := by
        cases hh : PyDateTime.ltB p.2 best.2
        · rfl
        · exact absurd hh h
      rw [show pickFirstMin best (p :: rest) = pickFirstMin best rest by
        simp [pickFirstMin, hb]]
      obtain ⟨qpre, qpost, hsplit, hpre, hpost⟩ := ih best
      cases hq : qpre with
      | nil =>
        rw [hq] at hsplit
        simp only [List.nil_append, List.cons.injEq] at hsplit
        refine ⟨[], p :: rest, by simp [← hsplit.1], by simp, ?_⟩
        intro x hx
        rcases List.mem_cons.mp hx with hx1 | hx1
        · rw [hx1, ← hsplit.1]
          exact hb
        · rw [hsplit.2] at hx1
          exact hpost x hx1
      | cons q qrest =>
        rw [hq] at hsplit
        simp only [List.cons_append, List.cons.injEq] at hsplit
        have hrest : rest = qrest ++ pickFirstMin best rest :: qpost := hsplit.2
        have hltbest : PyDateTime.ltB (pickFirstMin best rest).2 q.2 = true := by
          apply hpre
          rw [hq]
          simp
        rw [← hsplit.1] at hltbest
        refine ⟨best :: p :: qrest, qpost, ?_, ?_, hpost⟩
        · conv_lhs => rw [hrest]
          simp
        intro x hx
        rcases List.mem_cons.mp hx with hx1 | hx1
        · rw [hx1]
          exact hltbest
        · rcases List.mem_cons.mp hx1 with hx2 | hx2
          · rw [hx2]
            rw [ltB_true_iff] at hltbest ⊢
            rw [ltB_false_iff] at hb
            exact lexLt_lt_of_not_lt hltbest hb
          · apply hpre
            rw [hq]
            simp [hx2]

theorem quals_cons (ts : Option Bool) (now : PyDateTime) (tr : Trip)
    (rest : List Trip) :
    quals ts now (tr :: rest)
      = (if passFilter ts tr then
          match parse_datetime (timeSel ts tr) with
          | some t => if PyDateTime.ltB now t then (tr, t) :: quals ts now rest
                      else quals ts now rest
          | none => quals ts now rest
        else quals ts now rest) := by
  unfold quals
  rw [List.filterMap_cons]
  by_cases hp : passFilter ts tr
  · simp only [hp, if_true]
    cases hd : parse_datetime (timeSel ts tr) with
    | none => simp
    | some t =>
      by_cases hn : PyDateTime.ltB now t
      · simp [hn]
      · simp [hn]
  · simp [hp]

theorem nextTripLoop_some (ts : Option Bool) (now : PyDateTime)
    (trips : List Trip) :
    ∀ (tr0 : Trip) (t0 : PyDateTime),
      nextTripLoop ts now trips (some tr0) (some t0)
        = (some (pickFirstMin (tr0, t0) (quals ts now trips)).1,
           some (pickFirstMin (tr0, t0) (quals ts now trips)).2) := by
  induction trips with
  | nil => intro tr0 t0; rfl
  | cons tr rest ih =>
    intro tr0 t0
    rw [quals_cons]
    unfold nextTripLoop
    by_cases hp : passFilter ts tr
    · simp only [hp, if_true, not_true, if_neg (by simp : ¬ (¬ true = true))]
      cases hd : parse_datetime (timeSel ts tr) with
      | none => simp [ih]
      | some t =>
        by_cases hn : PyDateTime.ltB now t = true
        · simp only [hn, if_true]
          by_cases hlt : PyDateTime.ltB t t0 = true
          · simp [hlt, ih, pickFirstMin]
          · have hlt' : PyDateTime.ltB t t0 = false := by
              cases hh : PyDateTime.ltB t t0
              · rfl
              · exact absurd hh hlt
            simp [hlt', ih, pickFirstMin]
        · have hn' : PyDateTime.ltB now t = false := by
            cases hh : PyDateTime.ltB now t
            · rfl
            · exact absurd hh hn
          simp [hn', ih]
    · simp [hp, ih]

theorem nextTripLoop_none (ts : Option Bool) (now : PyDateTime)
    (trips : List Trip) :
    nextTripLoop ts now trips none none
      = (match quals ts now trips with
        | [] => (none, none)
        | p :: rest => (some (pickFirstMin p rest).1, some (pickFirstMin p rest).2)) := by
  induction trips with
  | nil => rfl
  | cons tr rest ih =>
    rw [quals_cons]
    unfold nextTripLoop
    by_cases hp : passFilter ts tr
    · simp only [hp, if_true, not_true]
      cases hd : parse_datetime (timeSel ts tr) with
      | none => simp [ih]
      | some t =>
        by_cases hn : PyDateTime.ltB now t = true
        · simp only [hn, if_true]
          simp [nextTripLoop_some]
        · have hn' : PyDateTime.ltB now t = false := by
            cases hh : PyDateTime.ltB now t
            · rfl
            · exact absurd hh hn
          simp [hn', ih]
    · simp [hp, ih]

theorem quals_fst_mem (ts : Option Bool) (now : PyDateTime) (trips : List Trip)
    (p : Trip × PyDateTime) (h : p ∈ quals ts now trips) : p.1 ∈ trips := by
  unfold quals at h
  rw [List.mem_filterMap] at h
  obtain ⟨a, ha, hfa⟩ := h
  by_cases hp : passFilter ts a
  · simp only [hp, if_true] at hfa
    cases hd : parse_datetime (timeSel ts a) with
    | none => simp [hd] at hfa
    | some t =>
      simp only [hd] at hfa
      by_cases hn : PyDateTime.ltB now t = true
      · simp only [hn, if_true, Option.some.injEq] at hfa
        rw [← hfa]
        exact ha
      · simp [hn] at hfa
  · simp [hp] at hfa

/-- C7: next-trip selection returns the first future qualifying trip with the
minimal direction-appropriate time, and none when no trip qualifies. -/
theorem C7_next_trip_selection (trips : List Trip) (ts : Option Bool)
    (now : PyDateTime) :
    (get_next_trip trips ts now = none ↔ quals ts now trips = []) ∧
    (∀ tr, get_next_trip trips ts now = some tr →
      tr ∈ trips ∧ ∃ t qpre qpost,
        quals ts now trips = qpre ++ (tr, t) :: qpost ∧
        (∀ p ∈ qpre, PyDateTime.ltB t p.2 = true) ∧
        (∀ p ∈ qpost, PyDateTime.ltB p.2 t = false)) := by
  unfold get_next_trip
  rw [nextTripLoop_none]
  cases hq : quals ts now trips with
  | nil =>
    constructor
    · simp
    · intro tr htr
      simp at htr
  | cons p rest =>
    constructor
    · simp
    · intro tr htr
      simp only [Option.some.injEq] at htr
      obtain ⟨qpre, qpost, hsplit, hpre, hpost⟩ := pickFirstMin_split rest p
      have hpair : (tr, (pickFirstMin p rest).2) = pickFirstMin p rest := by
        rw [← htr]
      have hmem : pickFirstMin p rest ∈ quals ts now trips := by
        rw [hq, hsplit]
        exact List.mem_append_right _ (List.mem_cons_self _ _)
      refine ⟨?_, (pickFirstMin p rest).2, qpre, qpost, ?_, ?_, ?_⟩
      · have := quals_fst_mem ts now trips _ hmem
        rw [← htr]
        exact this
      · rw [hpair]
        exact hsplit
      · intro x hx
        have := hpre x hx
        rw [← hpair] at this
        exact this
      · intro x hx
        have := hpost x hx
        rw [← hpair] at this
        exact this

/-- C1 counterexample: a JSON discovery body is rejected with a connection
error instead of yielding the URL held in the JSON field. -/
theorem C1_json_body_counterexample :
    (py_get_stopfinder_base_url envJsonDiscovery {}).1
      = Except.error (SFError.connectionError "Invalid response from Stopfinder discovery") ∧
    (py_get_stopfinder_base_url envJsonDiscovery {}).1 ≠ Except.ok "https://x" := by
  constructor
  · rfl
  · decide

/-- C1 (amended): discovery returns the trimmed body exactly when the status
is 200 and the trimmed body starts with "http"; every other body shape —
including a JSON object — fails with a connection error, as does a non-200
status. -/
theorem C1_discovery_parsing (env : Env) (rs : RunState) :
    ((env rs.n).status = 200 → pyStartsWith (pyStrip (env rs.n).textBody) "http" = true →
      py_get_stopfinder_base_url env rs
        = (Except.ok (pyStrip (env rs.n).textBody), push rs ReqKind.discovery)) ∧
    ((env rs.n).status = 200 → pyStartsWith (pyStrip (env rs.n).textBody) "http" = false →
      py_get_stopfinder_base_url env rs
        = (Except.error (SFError.connectionError "Invalid response from Stopfinder discovery"),
           push rs ReqKind.discovery)) ∧
    ((env rs.n).status ≠ 200 →
      py_get_stopfinder_base_url env rs
        = (Except.error (SFError.connectionError
            ("Failed to get Stopfinder URL: " ++ toString (env rs.n).status)),
           push rs ReqKind.discovery)) := by
  refine ⟨?_, ?_, ?_⟩
  · intro hs hb
    simp [py_get_stopfinder_base_url, hs, hb]
  · intro hs hb
    simp [py_get_stopfinder_base_url, hs, hb]
  · intro hs
    simp [py_get_stopfinder_base_url, hs]

/-- C1 witness: the amended discovery theorem applied to a concrete
plain-text response. -/
theorem C1_discovery_parsing_witness :
    (envTextDiscovery (RunState.n {})).status = 200 ∧
    pyStartsWith (pyStrip (envTextDiscovery (RunState.n {})).textBody) "http" = true ∧
    py_get_stopfinder_base_url envTextDiscovery {}
      = (Except.ok "https://svc.example.com/api", push {} ReqKind.discovery) :=
  ⟨rfl, by decide, (C1_discovery_parsing envTextDiscovery {}).1 rfl (by decide)⟩

/-- C2 counterexample: a trip whose upstream time fields are absent is
normalized with null (absent) time fields, not empty strings. -/
theorem C2_null_time_fields_counterexample :
    (parse_schedule_response (some [dayWithEmptyTrip])).map
        (fun s => s.trips.map (fun t => (t.pickup_time, t.dropoff_time, t.start_time, t.finish_time)))
      = [[((none : Option String), (none : Option String), (none : Option String),
          (none : Option String))]] ∧
    (none : Option String) ≠ some "" := by
  constructor
  · rfl
  · decide

/-- C2 (amended): in a normalized trip record, absent upstream fields default
to the empty string for the textual fields and to false for `to_school`,
while the four time fields stay absent (null) when missing upstream. -/
theorem C2_trip_defaults (d : String) (tr : RawTrip) :
    (tr.name = none → (tripRecord d tr).name = "") ∧
    (tr.busNumber = none → (tripRecord d tr).bus_number = "") ∧
    (tr.pickUpStopName = none → (tripRecord d tr).pickup_stop_name = "") ∧
    (tr.dropOffStopName = none → (tripRecord d tr).dropoff_stop_name = "") ∧
    (tr.vehicleId = none → (tripRecord d tr).vehicle_id = "") ∧
    (tr.toSchool = none → (tripRecord d tr).to_school = false) ∧
    (tr.pickUpTime = none → (tripRecord d tr).pickup_time = none) ∧
    (tr.dropOffTime = none → (tripRecord d tr).dropoff_time = none) ∧
    (tr.startTime = none → (tripRecord d tr).start_time = none) ∧
    (tr.finishTime = none → (tripRecord d tr).finish_time = none) := by
  refine ⟨?_, ?_, ?_, ?_, ?_, ?_, ?_, ?_, ?_, ?_⟩ <;> intro h <;>
    simp [tripRecord, h, fix_date, adjust_time]

/-- C2 witness: the amended defaults theorem applied to the empty raw trip. -/
theorem C2_trip_defaults_witness :
    (tripRecord "2024-03-10" {}).name = "" ∧
    (tripRecord "2024-03-10" {}).to_school = false ∧
    (tripRecord "2024-03-10" {}).pickup_time = none :=
  ⟨(C2_trip_defaults "2024-03-10" {}).1 rfl,
   (C2_trip_defaults "2024-03-10" {}).2.2.2.2.2.1 rfl,
   (C2_trip_defaults "2024-03-10" {}).2.2.2.2.2.2.1 rfl⟩

/-- C4 counterexample: when the canonical date is shorter than 10 characters
(a day object without a date yields "?"), a qualifying time value is passed
through unmodified instead of having its leading 10 characters replaced. -/
theorem C4_short_date_counterexample :
    fix_date (some "2024-01-01T08:15:00") "?" = some "2024-01-01T08:15:00" ∧
    fix_date (some "2024-01-01T08:15:00") "?" ≠ some ("?" ++ "T08:15:00") := by
  constructor
  · rfl
  · decide

/-- C4 (amended): date repair replaces the leading 10 characters of the value
with the canonical date exactly when the value is a non-empty string of at
least 10 characters containing a literal "T" and the canonical date itself has
at least 10 characters; every other input — an absent value, an empty string,
a short string, a string without "T", or a canonical date shorter than 10
characters — is returned unmodified. -/
theorem C4_fix_date_repair (s d : String) :
    (s ≠ "" → 10 ≤ s.length → strContainsChar s 'T' = true → 10 ≤ d.length →
      fix_date (some s) d = some (d ++ s.drop 10)) ∧
    (fix_date none d = none) ∧
    (fix_date (some "") d = some "") ∧
    (strContainsChar s 'T' = false → fix_date (some s) d = some s) ∧
    (s.length < 10 → fix_date (some s) d = some s) ∧
    (d.length < 10 → fix_date (some s) d = some s) := by
  refine ⟨?_, rfl, ?_, ?_, ?_, ?_⟩
  · intro hs hl hT hd
    rw [fix_date]
    rw [if_neg (by push_neg; exact ⟨hs, by omega⟩)]
    rw [if_pos ⟨hl, hT⟩]
  · simp [fix_date]
  · intro hT
    rw [fix_date]
    by_cases h0 : s = "" ∨ d.length < 10
    · rw [if_pos h0]
    · rw [if_neg h0, if_neg (by simp [hT])]
  · intro hl
    rw [fix_date]
    by_cases h0 : s = "" ∨ d.length < 10
    · rw [if_pos h0]
    · rw [if_neg h0, if_neg (by omega)]
  · intro hd
    rw [fix_date]
    rw [if_pos (Or.inr hd)]

/-- C4 witness: the amended date-repair theorem applied to the spec's
example values. -/
theorem C4_fix_date_repair_witness :
    ("2024-01-01T08:15:00" : String) ≠ "" ∧
    10 ≤ ("2024-01-01T08:15:00" : String).length ∧
    strContainsChar "2024-01-01T08:15:00" 'T' = true ∧
    10 ≤ ("2024-03-10" : String).length ∧
    fix_date (some "2024-01-01T08:15:00") "2024-03-10" = some "2024-03-10T08:15:00" :=
  ⟨by decide, by decide, by decide, by decide,
   (C4_fix_date_repair "2024-01-01T08:15:00" "2024-03-10").1
     (by decide) (by decide) (by decide) (by decide)⟩

/-- C5: minute adjustment re-serializes the parsed timestamp shifted by the
offset exactly when the offset is non-zero and the value parses; a zero
offset, an unparseable value, or an absent value is returned verbatim. -/
theorem C5_adjust_time_offset (s : String) (m : Int) (dt : PyDateTime) :
    (m ≠ 0 → fromisoformat s = some dt →
      adjust_time (some s) m = some (PyDateTime.isoformat (dt.addMinutes m))) ∧
    (m = 0 → adjust_time (some s) m = some s) ∧
    (fromisoformat s = none → adjust_time (some s) m = some s) ∧
    (adjust_time none m = none) := by
  refine ⟨?_, ?_, ?_, rfl⟩
  · intro hm hp
    have hs : s ≠ "" := by
      intro h
      rw [h] at hp
      exact Option.noConfusion ((rfl : fromisoformat "" = none) ▸ hp)
    rw [adjust_time, if_neg (by simp [hs, hm]), hp]
  · intro hm
    rw [adjust_time, if_pos (Or.inr hm)]
  · intro hp
    rw [adjust_time]
    by_cases h0 : s = "" ∨ m = 0
    · rw [if_pos h0]
    · rw [if_neg h0, hp]

/-- C5 witness: the adjustment theorem applied to the spec's example values. -/
theorem C5_adjust_time_offset_witness :
    (-10 : Int) ≠ 0 ∧
    fromisoformat "2024-03-10T08:15:00" = some ⟨2024, 3, 10, 8, 15, 0⟩ ∧
    adjust_time (some "2024-03-10T08:15:00") (-10) = some "2024-03-10T08:05:00" ∧
    adjust_time (some "2024-03-10T08:15:00") 0 = some "2024-03-10T08:15:00" :=
  ⟨by decide, by rfl,
   (C5_adjust_time_offset "2024-03-10T08:15:00" (-10) ⟨2024, 3, 10, 8, 15, 0⟩).1
     (by decide) (by rfl),
   (C5_adjust_time_offset "2024-03-10T08:15:00" 0 ⟨2024, 3, 10, 8, 15, 0⟩).2.1 rfl⟩

/-- With a truthy discovered base URL the discovery guard is a no-op. -/
theorem ensureBaseUrl_of_truthy (env : Env) (rs : RunState)
    (h : optTruthy rs.st.apiBaseUrl = true) :
    ensureBaseUrl env rs = (Except.ok (), rs) := by
  unfold ensureBaseUrl
  rw [if_pos h]

/-- C8 counterexample: a 2xx status other than 200/201 (here 202) with a
token in the body is rejected with an authentication error instead of storing
the token, and the invalid-credentials message is capitalized ("Invalid
credentials", not "invalid credentials"). -/
theorem C8_status_202_counterexample :
    (py_authenticate envAuth202 rsBase).1
      = Except.error (SFError.authError "Authentication failed: 202") ∧
    (py_authenticate envAuth202 rsBase).2.st.token ≠ some "abc" ∧
    (py_authenticate envAuth401 rsBase).1
      = Except.error (SFError.authError "Invalid credentials") ∧
    ("Invalid credentials" : String) ≠ "invalid credentials" := by
  refine ⟨rfl, ?_, rfl, ?_⟩
  · decide
  · decide

/-- C8 (amended): authentication raises the auth error "Invalid credentials"
exactly on status 400 or 401, an auth error carrying the status code on any
status other than 200 and 201, an auth error when a 200/201 body lacks a
truthy token, and on a 200/201 body with a non-empty token stores that
token. -/
theorem C8_authenticate_statuses (env : Env) (rs : RunState) (tk : String)
    (hbase : optTruthy rs.st.apiBaseUrl = true) :
    ((env rs.n).status = 400 ∨ (env rs.n).status = 401 →
      py_authenticate env rs
        = (Except.error (SFError.authError "Invalid credentials"),
           push rs ReqKind.tokens)) ∧
    (¬ ((env rs.n).status = 200 ∨ (env rs.n).status = 201) →
      ¬ ((env rs.n).status = 400 ∨ (env rs.n).status = 401) →
      py_authenticate env rs
        = (Except.error (SFError.authError
            ("Authentication failed: " ++ toString (env rs.n).status)),
           push rs ReqKind.tokens)) ∧
    (((env rs.n).status = 200 ∨ (env rs.n).status = 201) →
      optTruthy (env rs.n).tokenField = false →
      py_authenticate env rs
        = (Except.error (SFError.authError "No token in response"),
           { st := { rs.st with token := (env rs.n).tokenField },
             n := rs.n + 1, trace := rs.trace ++ [ReqKind.tokens] })) ∧
    (((env rs.n).status = 200 ∨ (env rs.n).status = 201) →
      (env rs.n).tokenField = some tk → tk ≠ "" →
      py_authenticate env rs
        = (Except.ok (),
           { st := { rs.st with token := some tk },
             n := rs.n + 1, trace := rs.trace ++ [ReqKind.tokens] })) := by
  refine ⟨?_, ?_, ?_, ?_⟩
  · intro h
    unfold py_authenticate
    rw [ensureBaseUrl_of_truthy env rs hbase]
    dsimp only
    rw [if_pos h]
  · intro h1 h2
    unfold py_authenticate
    rw [ensureBaseUrl_of_truthy env rs hbase]
    dsimp only
    rw [if_neg h2, if_pos h1]
  · intro h1 h2
    unfold py_authenticate
    rw [ensureBaseUrl_of_truthy env rs hbase]
    dsimp only
    rw [if_neg (by omega : ¬ ((env rs.n).status = 400 ∨ (env rs.n).status = 401)),
      if_neg (not_not_intro h1), if_pos (by simp [h2])]
    rfl
  · intro h1 h2 h3
    unfold py_authenticate
    rw [ensureBaseUrl_of_truthy env rs hbase]
    dsimp only
    rw [if_neg (by omega : ¬ ((env rs.n).status = 400 ∨ (env rs.n).status = 401)),
      if_neg (not_not_intro h1), h2,
      if_neg (by simp [optTruthy, h3])]
    rfl

/-- C8 witness: the amended authentication theorem applied to the spec's
concrete examples (401 rejection; 200 with token "abc" stored). -/
theorem C8_authenticate_statuses_witness :
    optTruthy rsBase.st.apiBaseUrl = true ∧
    py_authenticate envAuth401 rsBase
      = (Except.error (SFError.authError "Invalid credentials"), push rsBase ReqKind.tokens) ∧
    py_authenticate envAuth200 rsBase
      = (Except.ok (),
         { st := { rsBase.st with token := some "abc" },
           n := rsBase.n + 1, trace := rsBase.trace ++ [ReqKind.tokens] }) :=
  ⟨rfl,
   (C8_authenticate_statuses envAuth401 rsBase "abc" rfl).1 (Or.inr rfl),
   (C8_authenticate_statuses envAuth200 rsBase "abc" rfl).2.2.2 (Or.inl rfl) rfl (by decide)⟩

/-- C10 counterexample: at a 2xx status other than 200/201 (here 202) with a
token-less body, the status check raises before the token assignment, so a
previously stored token is retained and the session does not end up with the
token overwritten by an absent value. -/
theorem C10_status_202_keeps_token_counterexample :
    (py_authenticate envAuth202NoTok rsWithOldToken).1
      = Except.error (SFError.authError "Authentication failed: 202") ∧
    (py_authenticate envAuth202NoTok rsWithOldToken).2.st.token = some "old" ∧
    optTruthy (py_authenticate envAuth202NoTok rsWithOldToken).2.st.token = true := by
  refine ⟨rfl, rfl, rfl⟩

/-- C10 (amended): exactly on a 200/201 response whose body lacks a truthy
token, the auth error is raised only after the stored token has been
overwritten with the body's absent value, leaving the session
unauthenticated; on every other status (including 2xx statuses such as 202)
the status check raises before the assignment and the stored token is left
unchanged. -/
theorem C10_token_overwrite_on_200_201 (env : Env) (rs : RunState)
    (hbase : optTruthy rs.st.apiBaseUrl = true) :
    (((env rs.n).status = 200 ∨ (env rs.n).status = 201) →
      optTruthy (env rs.n).tokenField = false →
      py_authenticate env rs
        = (Except.error (SFError.authError "No token in response"),
           { st := { rs.st with token := (env rs.n).tokenField },
             n := rs.n + 1, trace := rs.trace ++ [ReqKind.tokens] }) ∧
      optTruthy (py_authenticate env rs).2.st.token = false) ∧
    (¬ ((env rs.n).status = 200 ∨ (env rs.n).status = 201) →
      (py_authenticate env rs).2.st.token = rs.st.token) := by
  constructor
  · intro hst htf
    have hmain : py_authenticate env rs
        = (Except.error (SFError.authError "No token in response"),
           { st := { rs.st with token := (env rs.n).tokenField },
             n := rs.n + 1, trace := rs.trace ++ [ReqKind.tokens] }) := by
      unfold py_authenticate
      rw [ensureBaseUrl_of_truthy env rs hbase]
      dsimp only
      rw [if_neg (by omega : ¬ ((env rs.n).status = 400 ∨ (env rs.n).status = 401)),
        if_neg (not_not_intro hst), if_pos (by simp [htf])]
      rfl
    exact ⟨hmain, by rw [hmain]; exact htf⟩
  · intro hst
    unfold py_authenticate
    rw [ensureBaseUrl_of_truthy env rs hbase]
    dsimp only
    by_cases h4 : (env rs.n).status = 400 ∨ (env rs.n).status = 401
    · rw [if_pos h4]
      rfl
    · rw [if_neg h4, if_pos hst]
      rfl

/-- C10 witness: the amended theorem applied concretely — a previously stored
token is lost when a 200 body carries an empty token, and retained when a 202
response arrives with no token field. -/
theorem C10_token_overwrite_on_200_201_witness :
    optTruthy rsWithOldToken.st.apiBaseUrl = true ∧
    ((envAuthEmptyTok rsWithOldToken.n).status = 200 ∨
      (envAuthEmptyTok rsWithOldToken.n).status = 201) ∧
    py_authenticate envAuthEmptyTok rsWithOldToken
      = (Except.error (SFError.authError "No token in response"),
         { st := { rsWithOldToken.st with token := some "" },
           n := rsWithOldToken.n + 1,
           trace := rsWithOldToken.trace ++ [ReqKind.tokens] }) ∧
    optTruthy (py_authenticate envAuthEmptyTok rsWithOldToken).2.st.token = false ∧
    (py_authenticate envAuth202NoTok rsWithOldToken).2.st.token
      = rsWithOldToken.st.token :=
  ⟨rfl, Or.inl rfl,
   ((C10_token_overwrite_on_200_201 envAuthEmptyTok rsWithOldToken rfl).1 (Or.inl rfl) rfl).1,
   ((C10_token_overwrite_on_200_201 envAuthEmptyTok rsWithOldToken rfl).1 (Or.inl rfl) rfl).2,
   (C10_token_overwrite_on_200_201 envAuth202NoTok rsWithOldToken rfl).2 (by decide)⟩

/-- Successful password-grant authentication with a discovered base URL. -/
theorem py_authenticate_success (env : Env) (rs : RunState) (tk : String)
    (hbase : optTruthy rs.st.apiBaseUrl = true)
    (h1 : (env rs.n).status = 200 ∨ (env rs.n).status = 201)
    (h2 : (env rs.n).tokenField = some tk) (h3 : tk ≠ "") :
    py_authenticate env rs
      = (Except.ok (),
         { st := { rs.st with token := some tk },
           n := rs.n + 1, trace := rs.trace ++ [ReqKind.tokens] }) := by
  unfold py_authenticate
  rw [ensureBaseUrl_of_truthy env rs hbase]
  dsimp only
  rw [if_neg (by omega : ¬ ((env rs.n).status = 400 ∨ (env rs.n).status = 401)),
    if_neg (not_not_intro h1), h2,
    if_neg (by simp [optTruthy, h3])]
  rfl

/-- Successful client-id fetch with a discovered base URL. -/
theorem py_get_client_id_success (env : Env) (rs : RunState) (c : Option String)
    (l : List (Option String))
    (hbase : optTruthy rs.st.apiBaseUrl = true)
    (hst : (env rs.n).status = 200)
    (hv : (env rs.n).versionsBody = some (c :: l)) :
    py_get_client_id env rs
      = (Except.ok c,
         { st := { rs.st with clientId := c },
           n := rs.n + 1,
           trace := rs.trace ++ [ReqKind.apiversions (get_headers true rs.st)] }) := by
  unfold py_get_client_id
  rw [ensureBaseUrl_of_truthy env rs hbase]
  dsimp only
  rw [if_neg (not_not_intro hst), hv]
  rfl

/-- Successful full authentication chain (token then client id) with a
discovered base URL. -/
theorem py_authenticate_full_success (env : Env) (rs : RunState) (tk : String)
    (c : Option String) (l : List (Option String))
    (hbase : optTruthy rs.st.apiBaseUrl = true)
    (h1 : (env rs.n).status = 200 ∨ (env rs.n).status = 201)
    (h2 : (env rs.n).tokenField = some tk) (h3 : tk ≠ "")
    (h4 : (env (rs.n + 1)).status = 200)
    (h5 : (env (rs.n + 1)).versionsBody = some (c :: l)) :
    py_authenticate_full env rs
      = (Except.ok true,
         { st := { token := some tk, clientId := c, apiBaseUrl := rs.st.apiBaseUrl },
           n := rs.n + 2,
           trace := rs.trace ++ [ReqKind.tokens,
             ReqKind.apiversions { token := some tk, clientKeys := none }] }) := by
  unfold py_authenticate_full
  rw [py_authenticate_success env rs tk hbase h1 h2 h3]
  dsimp only
  rw [py_get_client_id_success env
    { st := { token := some tk, clientId := rs.st.clientId, apiBaseUrl := rs.st.apiBaseUrl },
      n := rs.n + 1, trace := rs.trace ++ [ReqKind.tokens] } c l hbase h4 h5]
  simp [get_headers, optTruthy, h3]

/-- C3: a non-200 schedule response clears the token, re-runs the full
authentication chain, rebuilds the headers, and retries the identical query
exactly once; a second non-200 response fails with an API error carrying the
retry's status, with no third request (the final trace holds exactly two
schedule requests and the request counter stops at four). -/
theorem C3_schedule_retry_once (env : Env) (st : ClientState) (dS dE tk : String)
    (c : String) (l : List (Option String))
    (htok : optTruthy st.token = true)
    (hbase : optTruthy st.apiBaseUrl = true)
    (hc : c ≠ "")
    (h0 : (env 0).status ≠ 200)
    (h1s : (env 1).status = 200) (h1t : (env 1).tokenField = some tk) (htk : tk ≠ "")
    (h2s : (env 2).status = 200) (h2v : (env 2).versionsBody = some (some c :: l))
    (h3 : (env 3).status ≠ 200) :
    py_get_schedules env dS dE { st := st, n := 0, trace := [] }
      = (Except.error (SFError.apiError
          ("Failed to get schedules: " ++ toString (env 3).status)),
         { st := { token := some tk, clientId := some c, apiBaseUrl := st.apiBaseUrl },
           n := 4,
           trace := [ReqKind.students dS dE (withClientKeys (get_headers true st) st),
                     ReqKind.tokens,
                     ReqKind.apiversions { token := some tk, clientKeys := none },
                     ReqKind.students dS dE { token := some tk, clientKeys := some c }] }) := by
  unfold py_get_schedules
  dsimp only
  rw [if_neg (by simp [htok])]
  dsimp only
  unfold py_get_schedules_query
  dsimp only
  rw [if_neg (by simp [hbase]), if_neg h0]
  dsimp only [push, List.nil_append]
  rw [py_authenticate_full_success env
    { st := { token := none, clientId := st.clientId, apiBaseUrl := st.apiBaseUrl },
      n := 0 + 1,
      trace := [ReqKind.students dS dE (withClientKeys (get_headers true st) st)] }
    tk (some c) l hbase (Or.inl h1s) h1t htk h2s h2v]
  dsimp only
  rw [if_pos h3]
  simp [withClientKeys, get_headers, optTruthy, htk, hc]

/-- With a discovered base URL, authentication neither changes the stored
base URL nor issues a discovery request. -/
theorem authenticate_preserves_base (env : Env) (rs : RunState)
    (h : optTruthy rs.st.apiBaseUrl = true) :
    (py_authenticate env rs).2.st.apiBaseUrl = rs.st.apiBaseUrl ∧
    List.countP isDiscovery (py_authenticate env rs).2.trace
      = List.countP isDiscovery rs.trace := by
  unfold py_authenticate
  rw [ensureBaseUrl_of_truthy env rs h]
  dsimp only
  split
  · simp [push, List.countP_append, isDiscovery]
  · split
    · simp [push, List.countP_append, isDiscovery]
    · split
      · simp [push, List.countP_append, isDiscovery]
      · simp [push, List.countP_append, isDiscovery]

/-- With a discovered base URL, the client-id fetch neither changes the
stored base URL nor issues a discovery request. -/
theorem get_client_id_preserves_base (env : Env) (rs : RunState)
    (h : optTruthy rs.st.apiBaseUrl = true) :
    (py_get_client_id env rs).2.st.apiBaseUrl = rs.st.apiBaseUrl ∧
    List.countP isDiscovery (py_get_client_id env rs).2.trace
      = List.countP isDiscovery rs.trace := by
  unfold py_get_client_id
  rw [ensureBaseUrl_of_truthy env rs h]
  dsimp only
  split
  · simp [push, List.countP_append, isDiscovery]
  · split
    · simp [push, List.countP_append, isDiscovery]
    · simp [push, List.countP_append, isDiscovery]

/-- With a discovered base URL, the full authentication chain neither changes
the stored base URL nor issues a discovery request. -/
theorem authenticate_full_preserves_base (env : Env) (rs : RunState)
    (h : optTruthy rs.st.apiBaseUrl = true) :
    (py_authenticate_full env rs).2.st.apiBaseUrl = rs.st.apiBaseUrl ∧
    List.countP isDiscovery (py_authenticate_full env rs).2.trace
      = List.countP isDiscovery rs.trace := by
  unfold py_authenticate_full
  rcases hpa : py_authenticate env rs with ⟨r1, rs1⟩
  have hp := authenticate_preserves_base env rs h
  rw [hpa] at hp
  cases r1 with
  | error e => exact hp
  | ok a =>
    have h1 : optTruthy rs1.st.apiBaseUrl = true := by rw [hp.1]; exact h
    dsimp only
    rcases hpc : py_get_client_id env rs1 with ⟨r2, rs2⟩
    have hq := get_client_id_preserves_base env rs1 h1
    rw [hpc] at hq
    cases r2 with
    | error e => exact ⟨hq.1.trans hp.1, hq.2.trans hp.2⟩
    | ok c => exact ⟨hq.1.trans hp.1, hq.2.trans hp.2⟩

/-- With a discovered base URL, the query-and-retry body of the schedule
fetch neither changes the stored base URL nor issues a discovery request. -/
theorem get_schedules_query_preserves_base (env : Env) (rs1 : RunState)
    (dS dE : String) (h : optTruthy rs1.st.apiBaseUrl = true) :
    (py_get_schedules_query env dS dE rs1).2.st.apiBaseUrl = rs1.st.apiBaseUrl ∧
    List.countP isDiscovery (py_get_schedules_query env dS dE rs1).2.trace
      = List.countP isDiscovery rs1.trace := by
  unfold py_get_schedules_query
  rw [if_neg (not_not_intro h)]
  dsimp only [push]
  split
  · exact ⟨rfl, by simp [List.countP_append, isDiscovery]⟩
  · rcases hpa : py_authenticate_full env
      { st := { token := none, clientId := rs1.st.clientId, apiBaseUrl := rs1.st.apiBaseUrl },
        n := rs1.n + 1,
        trace := rs1.trace ++ [ReqKind.students dS dE
          (withClientKeys (get_headers true rs1.st) rs1.st)] } with ⟨r4, rs4⟩
    have hfull := authenticate_full_preserves_base env
      { st := { token := none, clientId := rs1.st.clientId, apiBaseUrl := rs1.st.apiBaseUrl },
        n := rs1.n + 1,
        trace := rs1.trace ++ [ReqKind.students dS dE
          (withClientKeys (get_headers true rs1.st) rs1.st)] } h
    rw [hpa] at hfull
    dsimp only at hfull
    cases r4 with
    | error e =>
      exact ⟨hfull.1, hfull.2.trans (by simp [List.countP_append, isDiscovery])⟩
    | ok a =>
      dsimp only
      split
      · refine ⟨hfull.1, ?_⟩
        rw [List.countP_append, hfull.2, List.countP_append]
        simp [isDiscovery]
      · refine ⟨hfull.1, ?_⟩
        rw [List.countP_append, hfull.2, List.countP_append]
        simp [isDiscovery]

/-- With a discovered base URL, the schedule fetch (including its
re-authentication retry path) neither changes the stored base URL nor issues
a discovery request. -/
theorem get_schedules_preserves_base (env : Env) (rs : RunState)
    (dS dE : String) (h : optTruthy rs.st.apiBaseUrl = true) :
    (py_get_schedules env dS dE rs).2.st.apiBaseUrl = rs.st.apiBaseUrl ∧
    List.countP isDiscovery (py_get_schedules env dS dE rs).2.trace
      = List.countP isDiscovery rs.trace := by
  unfold py_get_schedules
  dsimp only
  by_cases ht : optTruthy rs.st.token = true
  · rw [if_neg (not_not_intro ht)]
    exact get_schedules_query_preserves_base env rs dS dE h
  · rw [if_pos (by simpa using ht)]
    rcases hpa : py_authenticate_full env rs with ⟨r0, rs0⟩
    have hfull := authenticate_full_preserves_base env rs h
    rw [hpa] at hfull
    dsimp only at hfull
    cases r0 with
    | error e => exact hfull
    | ok a =>
      have h0 : optTruthy rs0.st.apiBaseUrl = true := by rw [hfull.1]; exact h
      have hq := get_schedules_query_preserves_base env rs0 dS dE h0
      exact ⟨hq.1.trans hfull.1, hq.2.trans hfull.2⟩

/-- C9: once the base URL is discovered (truthy), authentication, the full
authentication chain, and the schedule fetch — including its token-clear
retry path — all leave the stored base URL unchanged and issue no discovery
request. -/
theorem C9_api_base_url_stable (env : Env) (rs : RunState) (dS dE : String)
    (hbase : optTruthy rs.st.apiBaseUrl = true) :
    ((py_authenticate env rs).2.st.apiBaseUrl = rs.st.apiBaseUrl ∧
      List.countP isDiscovery (py_authenticate env rs).2.trace
        = List.countP isDiscovery rs.trace) ∧
    ((py_authenticate_full env rs).2.st.apiBaseUrl = rs.st.apiBaseUrl ∧
      List.countP isDiscovery (py_authenticate_full env rs).2.trace
        = List.countP isDiscovery rs.trace) ∧
    ((py_get_schedules env dS dE rs).2.st.apiBaseUrl = rs.st.apiBaseUrl ∧
      List.countP isDiscovery (py_get_schedules env dS dE rs).2.trace
        = List.countP isDiscovery rs.trace) :=
  ⟨authenticate_preserves_base env rs hbase,
   authenticate_full_preserves_base env rs hbase,
   get_schedules_preserves_base env rs dS dE hbase⟩

/-- C3 witness: the retry theorem applied to the spec's 500-then-503
scenario. -/
theorem C3_schedule_retry_once_witness :
    optTruthy wStFull.token = true ∧
    (wEnvRetry 0).status ≠ 200 ∧ (wEnvRetry 3).status ≠ 200 ∧
    py_get_schedules wEnvRetry "2024-03-10" "2024-03-17" { st := wStFull, n := 0, trace := [] }
      = (Except.error (SFError.apiError "Failed to get schedules: 503"),
         { st := { token := some "tk2", clientId := some "cid", apiBaseUrl := some "https://api" },
           n := 4,
           trace := [ReqKind.students "2024-03-10" "2024-03-17"
                       { token := some "old", clientKeys := some "cid" },
                     ReqKind.tokens,
                     ReqKind.apiversions { token := some "tk2", clientKeys := none },
                     ReqKind.students "2024-03-10" "2024-03-17"
                       { token := some "tk2", clientKeys := some "cid" }] }) :=
  ⟨rfl, by decide, by decide,
   C3_schedule_retry_once wEnvRetry wStFull "2024-03-10" "2024-03-17" "tk2" "cid" []
     rfl rfl (by decide) (by decide) rfl rfl (by decide) rfl rfl (by decide)⟩

/-- C9 witness: base-URL stability applied to the concrete retry scenario. -/
theorem C9_api_base_url_stable_witness :
    optTruthy wRsFull.st.apiBaseUrl = true ∧
    (py_get_schedules wEnvRetry "2024-03-10" "2024-03-17" wRsFull).2.st.apiBaseUrl
      = wRsFull.st.apiBaseUrl ∧
    List.countP isDiscovery
        (py_get_schedules wEnvRetry "2024-03-10" "2024-03-17" wRsFull).2.trace
      = List.countP isDiscovery wRsFull.trace ∧
    (py_authenticate wEnvRetry wRsFull).2.st.apiBaseUrl = wRsFull.st.apiBaseUrl :=
  ⟨rfl,
   (C9_api_base_url_stable wEnvRetry wRsFull "2024-03-10" "2024-03-17" rfl).2.2.1,
   (C9_api_base_url_stable wEnvRetry wRsFull "2024-03-10" "2024-03-17" rfl).2.2.2,
   (C9_api_base_url_stable wEnvRetry wRsFull "2024-03-10" "2024-03-17" rfl).1.1⟩

/-- C6: normalization merges day payloads by rider id — its output equals the
spec-side merge description (one record per distinct rider id in
first-insertion order, identity from the first occurrence, trips accumulated
in day order), rider ids in the output are pairwise distinct, and in
particular two days each holding rider "R1" with one trip yield one student
with both trips in day order with identity from the first day. -/
theorem C6_merge_by_rider :
    (∀ days : List RawDay,
      parse_schedule_response (some days) = mergeSpec days ∧
      ((parse_schedule_response (some days)).map Student.rider_id).Nodup) ∧
    (parse_schedule_response (some [exDay1, exDay2])).map
        (fun s => (s.rider_id, s.first_name, s.trips.map Trip.name))
      = [("R1", "A", ["t1", "t2"])] :=
  ⟨fun days => ⟨parse_eq_mergeSpec days, parse_rider_ids_nodup days⟩, by rfl⟩

/-- C7 witness: the selection theorem applied to the spec's scenario — with a
future and a past to-school trip the future one is selected, and with only
past trips none is. -/
theorem C7_next_trip_selection_witness :
    (get_next_trip [wTripB] (some true) wNow = none ↔
      quals (some true) wNow [wTripB] = []) ∧
    (wTripA ∈ [wTripA, wTripB] ∧ ∃ t qpre qpost,
      quals (some true) wNow [wTripA, wTripB] = qpre ++ (wTripA, t) :: qpost ∧
      (∀ p ∈ qpre, PyDateTime.ltB t p.2 = true) ∧
      (∀ p ∈ qpost, PyDateTime.ltB p.2 t = false)) :=
  ⟨(C7_next_trip_selection [wTripB] (some true) wNow).1,
   (C7_next_trip_selection [wTripA, wTripB] (some true) wNow).2 wTripA rfl⟩

end Stopfinder
